import Mathlib

/-!
Shallow embedding of src/module_m_decoder.py, the ModuleM streaming decoder
for the star-framed binary serial protocol. Bytes are modelled as Nat and
byte strings as List Nat; the frame-start marker byte 0x2A appears as 42,
and the command codes B, C, D, E as 66, 67, 68, 69. Instants returned by
time.time() are modelled as an Int supplied by the caller. The serial-port
discovery and reopen block of _read_data (source lines 87-117) is OS glue
outside the decoder core and is not modelled; the transport is modelled by
the list of bytes available this cycle and by a flag saying whether a write
to the port succeeds. All functions are total, which reflects that the
decoder never raises on any buffer contents.
-/

/-- Mirror of the Python class VictronSerialAmpsAndVoltage
(module_m_decoder.py lines 35-51): the decoded measurement snapshot with
three export flags, nine phase fields and two cumulative energy counters. -/
structure VictronSerialAmpsAndVoltage where
  command : Nat
  export_CT1 : Bool
  export_CT2 : Bool
  export_CT3 : Bool
  I1 : Nat
  I2 : Nat
  I3 : Nat
  U1 : Nat
  U2 : Nat
  U3 : Nat
  P1 : Nat
  P2 : Nat
  P3 : Nat
  energy_forward : Nat
  energy_reverse : Nat
deriving Repr, DecidableEq

/-- Lines 54-63: set_all_to_zero zeroes the nine phase fields and nothing
else. -/
def VictronSerialAmpsAndVoltage.set_all_to_zero
    (v : VictronSerialAmpsAndVoltage) : VictronSerialAmpsAndVoltage :=
  { v with I1 := 0, I2 := 0, I3 := 0, U1 := 0, U2 := 0, U3 := 0,
           P1 := 0, P2 := 0, P3 := 0 }

/-- The decoder state of class ModuleM (lines 71-84), restricted to the
fields the decoder core reads or writes. -/
structure ModuleM where
  datagram : List Nat
  serialnumber : Option (List Nat)
  mmdata : VictronSerialAmpsAndVoltage
  mmregistered : Bool
  last_update : Int
  mmregistered_last_register_request : Int
  new_port_name : Bool
  new_serialnumber : Bool
  errors : List (List Nat)
  errors_show_index : Nat
deriving Repr, DecidableEq

/-- The garbage-strip loop of _read_data (lines 133-135): drop leading bytes
while more than one byte remains and the first byte is not the marker 42. -/
def resyncLoop : List Nat → List Nat
  | [] => []
  | [b] => [b]
  | b :: c :: rest => if b = 42 then b :: c :: rest else resyncLoop (c :: rest)

/-- Lines 133-138 of _read_data: the strip loop followed by the single-byte
clear. In the source the clear condition is
len(datagram) == 1 and datagram[0] != b"*"; there datagram[0] is an int
while b"*" is a bytes object, so in Python 3 the inequality always holds and
any single remaining byte is cleared, the marker byte included. -/
def resync (d : List Nat) : List Nat :=
  if (resyncLoop d).length = 1 then [] else resyncLoop d

/-- Lines 157-158: while more than two bytes remain and the first two bytes
are not 42 66 (the bytes of "*B"), drop the first byte. -/
def regConfirmScan : List Nat → List Nat
  | [] => []
  | [b] => [b]
  | [b, c] => [b, c]
  | b :: c :: e :: rest =>
    if b = 42 ∧ c = 66 then b :: c :: e :: rest
    else regConfirmScan (c :: e :: rest)

/-- Python bytes.split on the two-byte separator 13 10 (CRLF), used at line
187: leftmost-first, non-overlapping; an empty input yields one empty
piece, matching the behaviour of bytes.split. -/
def splitCRLF : List Nat → List (List Nat)
  | [] => [[]]
  | [b] => [[b]]
  | 13 :: 10 :: rest => [] :: splitCRLF rest
  | b :: c :: rest =>
    match splitCRLF (c :: rest) with
    | [] => [[b]]
    | s :: ss => (b :: s) :: ss

/-- Line 191: errors[0] = errors[0][3:], removing the three header bytes of
the E record from the first CRLF segment. -/
def stripHead3 : List (List Nat) → List (List Nat)
  | [] => []
  | s :: ss => s.drop 3 :: ss

/-- One unsigned 32-bit field of a struct.unpack "I" read at byte offset i.
The format "=" uses the native byte order of the host running the source
program, which is little-endian. Out-of-range reads default to 0; the
decoder only evaluates this behind an explicit length check. -/
def u32At (d : List Nat) (i : Nat) : Nat :=
  d.getD i 0 + 256 * d.getD (i + 1) 0 + 65536 * d.getD (i + 2) 0 +
    16777216 * d.getD (i + 3) 0

/-- The field assignments of the C branch (lines 220-235): struct.unpack
"=2B3B9I" of the first 41 bytes of d written into the snapshot. The comment
at line 236 of the source notes that the energy values are not altered. -/
def updateAmps (v : VictronSerialAmpsAndVoltage) (d : List Nat) :
    VictronSerialAmpsAndVoltage :=
  { v with
    command := d.getD 1 0,
    export_CT1 := d.getD 2 0 != 0,
    export_CT2 := d.getD 3 0 != 0,
    export_CT3 := d.getD 4 0 != 0,
    I1 := u32At d 5, I2 := u32At d 9, I3 := u32At d 13,
    U1 := u32At d 17, U2 := u32At d 21, U3 := u32At d 25,
    P1 := u32At d 29, P2 := u32At d 33, P3 := u32At d 37 }

/-- The field assignments of the D branch (lines 251-268): struct.unpack
"=2B3B9I2I" of the first 49 bytes, the C fields plus the two energy
counters at offsets 41 and 45. -/
def updateAmpsEnergy (v : VictronSerialAmpsAndVoltage) (d : List Nat) :
    VictronSerialAmpsAndVoltage :=
  { updateAmps v d with
    energy_forward := u32At d 41, energy_reverse := u32At d 45 }

/-- Outcome of one _decode_data call: the updated decoder state and the
returned bool (True exactly when a telemetry record was decoded). -/
structure DecodeResult where
  state : ModuleM
  result : Bool
deriving Repr, DecidableEq

/-- The tail of _decode_data after the E branch: the C branch (lines
198-238), the D branch (lines 240-270), and the final unknown-command
fallback (lines 272-274). In the D branch the source unpacks 49 bytes but
then assigns datagram = datagram[41:] (line 252), so only 41 bytes are
consumed. -/
def decodeCD (m : ModuleM) : DecodeResult :=
  if m.datagram.take 2 = [42, 67] then
    if m.datagram.length < 41 then ⟨m, false⟩
    else ⟨{ m with mmdata := updateAmps m.mmdata m.datagram,
                   datagram := m.datagram.drop 41 }, true⟩
  else if m.datagram.take 2 = [42, 68] then
    if m.datagram.length < 49 then ⟨m, false⟩
    else ⟨{ m with mmdata := updateAmpsEnergy m.mmdata m.datagram,
                   datagram := m.datagram.drop 41 }, true⟩
  else ⟨{ m with datagram := [] }, false⟩

/-- The body of _decode_data past the two header checks and the last_update
refresh: the unregistered branch (lines 155-169), the E branch (lines
171-194, which for a positive line count falls through to the C and D
checks with an emptied buffer), then decodeCD. Its argument is the state
after line 153 has stored the current time. -/
def decodeAfterHeader (m1 : ModuleM) : DecodeResult :=
  if ¬ m1.mmregistered then
    if 13 ≤ (regConfirmScan m1.datagram).length then
      ⟨{ m1 with mmregistered := true,
                 datagram := ((regConfirmScan m1.datagram).drop 2).take 11,
                 serialnumber := some (((regConfirmScan m1.datagram).drop 2).take 11),
                 new_serialnumber := true }, false⟩
    else ⟨{ m1 with datagram := [] }, false⟩
  else if m1.datagram.take 2 = [42, 69] then
    if m1.datagram.length < 3 then ⟨m1, false⟩
    else if m1.datagram.getD 2 0 = 0 then
      ⟨{ m1 with errors := [], datagram := m1.datagram.drop 3 }, false⟩
    else if (splitCRLF m1.datagram).length < m1.datagram.getD 2 0 then ⟨m1, false⟩
    else
      decodeCD { m1 with
        errors := (stripHead3 (splitCRLF m1.datagram)).take (m1.datagram.getD 2 0),
        datagram := [] }
  else decodeCD m1

/-- ModuleM._decode_data (lines 143-274), with the caller-visible clock
passed in for time.time(). Control flow follows the source: the marker
check (144-147), the command-code check (149-152), the last_update refresh
(153), then decodeAfterHeader. -/
def decodeData (m : ModuleM) (now : Int) : DecodeResult :=
  if m.datagram.take 1 ≠ [42] then
    ⟨{ m with datagram := m.datagram.drop 1 }, false⟩
  else if (m.datagram.drop 1).take 1 ∉ ([[66], [67], [68], [69]] : List (List Nat)) then
    ⟨{ m with datagram := m.datagram.drop 2 }, false⟩
  else decodeAfterHeader { m with last_update := now }

/-- Outcome of one _read_data call: the updated state, the byte strings
passed to ser.write this cycle, whether such a write raised a (caught)
SerialException, and the returned bool. -/
structure ReadResult where
  state : ModuleM
  wrote : List (List Nat)
  writeFailed : Bool
  result : Bool
deriving Repr, DecidableEq

/-- The registration request written at line 123: the Python bytes literal
of star, capital A, newline, which is the three bytes 42 65 10. -/
def registerMsg : List Nat := [42, 65, 10]

/-- ModuleM._read_data (lines 119-140), past the port-discovery glue. The
bytes the port would deliver this cycle arrive as incoming; writeOk says
whether ser.write succeeds. When the registration-request branch fires
(lines 119-126) the function returns before ser.read is called, so incoming
is not consumed and the buffer is not inspected. Otherwise the incoming
bytes are appended (line 132) and the resynchronization of lines 133-138
runs; with a nonempty combined buffer, resync yields the empty list exactly
when the single-byte clear fired, in which case the source returns False. -/
def readData (m : ModuleM) (now : Int) (incoming : List Nat) (writeOk : Bool) :
    ReadResult :=
  if ¬ m.mmregistered ∧ 2 < now - m.mmregistered_last_register_request then
    ⟨{ m with mmregistered_last_register_request := now },
      [registerMsg], !writeOk, false⟩
  else if incoming = [] ∧ m.datagram = [] then
    ⟨m, [], false, false⟩
  else if resync (m.datagram ++ incoming) = [] then
    ⟨{ m with datagram := [] }, [], false, false⟩
  else ⟨{ m with datagram := resync (m.datagram ++ incoming) }, [], false, true⟩

/-- The staleness test of the main loop (line 286):
sma.last_update + 5 < time.time(). -/
def is_stale (m : ModuleM) (now : Int) : Bool :=
  m.last_update + 5 < now

/-- The reaction of the main loop to staleness (line 288):
sma.mmdata.set_all_to_zero(), leaving every other field of the state
alone. -/
def staleZero (m : ModuleM) : ModuleM :=
  { m with mmdata := m.mmdata.set_all_to_zero }

/-! ## Concrete states used by witnesses and counterexamples -/

/-- The all-zero measurement snapshot built by __init__ (lines 36-51). -/
def initSnapshot : VictronSerialAmpsAndVoltage :=
  ⟨0, false, false, false, 0, 0, 0, 0, 0, 0, 0, 0, 0, 0, 0⟩

/-- A well-formed 49-byte D record: marker, code D, export flags 1 0 1, the
nine phase fields with values 1 to 9, and energy counters 10 and 11 in
little-endian byte order. -/
def dRecord49 : List Nat :=
  [42, 68, 1, 0, 1] ++
  [1, 0, 0, 0] ++ [2, 0, 0, 0] ++ [3, 0, 0, 0] ++
  [4, 0, 0, 0] ++ [5, 0, 0, 0] ++ [6, 0, 0, 0] ++
  [7, 0, 0, 0] ++ [8, 0, 0, 0] ++ [9, 0, 0, 0] ++
  [10, 0, 0, 0] ++ [11, 0, 0, 0]

/-- A registered decoder state whose buffer holds exactly the 49-byte D
record dRecord49. -/
def mRegD : ModuleM :=
  ⟨dRecord49, some [0], initSnapshot, true, 0, 0, false, false, [], 0⟩

/-- An unregistered decoder state whose buffer holds the registration
confirmation header 42 66 followed by the 11 identity bytes 1 to 11. -/
def mUnreg13 : ModuleM :=
  ⟨[42, 66, 1, 2, 3, 4, 5, 6, 7, 8, 9, 10, 11], none, initSnapshot,
   false, 0, 0, false, false, [], 0⟩

/-- A registered decoder state whose buffer holds only the two header bytes
of a C record. -/
def mRegC2 : ModuleM :=
  ⟨[42, 67], none, initSnapshot, true, 0, 0, false, false, [], 0⟩

/-! ## Helper lemmas -/

/-- decodeCD never changes last_update. -/
theorem decodeCD_last_update (m : ModuleM) :
    (decodeCD m).state.last_update = m.last_update := by
  unfold decodeCD
  split
  · split <;> rfl
  · split
    · split <;> rfl
    · rfl

/-- The strip loop yields a list that is empty, a single byte, or starts
with the marker byte 42. -/
theorem resyncLoop_short_or_marker (l : List Nat) :
    (resyncLoop l).length ≤ 1 ∨ (resyncLoop l).take 1 = [42] := by
  induction l with
  | nil => left; simp [resyncLoop]
  | cons b tail ih =>
    cases tail with
    | nil => left; simp [resyncLoop]
    | cons c rest =>
      by_cases hb : b = 42
      · right; simp [resyncLoop, hb]
      · simpa [resyncLoop, hb] using ih

/-! ## Claim C1 -/

/-- Claim C1 (code bug): on a registered buffer holding a complete 49-byte D
record, the decode succeeds and writes the command, flags, phase and energy
fields, but the source consumes only 41 bytes (line 252), so the 8 energy
bytes of the record remain at the front of the buffer instead of none. -/
theorem C1_d_record_leaves_energy_bytes :
    (decodeData mRegD 3).result = true ∧
    (decodeData mRegD 3).state.mmdata.command = 68 ∧
    (decodeData mRegD 3).state.mmdata.export_CT1 = true ∧
    (decodeData mRegD 3).state.mmdata.export_CT2 = false ∧
    (decodeData mRegD 3).state.mmdata.export_CT3 = true ∧
    (decodeData mRegD 3).state.mmdata.I1 = 1 ∧
    (decodeData mRegD 3).state.mmdata.I2 = 2 ∧
    (decodeData mRegD 3).state.mmdata.I3 = 3 ∧
    (decodeData mRegD 3).state.mmdata.U1 = 4 ∧
    (decodeData mRegD 3).state.mmdata.U2 = 5 ∧
    (decodeData mRegD 3).state.mmdata.U3 = 6 ∧
    (decodeData mRegD 3).state.mmdata.P1 = 7 ∧
    (decodeData mRegD 3).state.mmdata.P2 = 8 ∧
    (decodeData mRegD 3).state.mmdata.P3 = 9 ∧
    (decodeData mRegD 3).state.mmdata.energy_forward = 10 ∧
    (decodeData mRegD 3).state.mmdata.energy_reverse = 11 ∧
    (decodeData mRegD 3).state.datagram = [10, 0, 0, 0, 11, 0, 0, 0] := by
  decide

/-! ## Claim C4 -/

/-- Claim C4 (code bug): resynchronization clears a buffer holding exactly
the single marker byte, because the clear condition at line 136 compares an
int with a bytes object and therefore always holds; the claim says a lone
marker byte is retained. The second conjunct shows the drop-while part on a
garbage prefix behaving as claimed. -/
theorem C4_resync_clears_lone_marker :
    resync [42] = [] ∧ resync [1, 2, 42, 7] = [42, 7] := by
  decide

/-! ## Claim C2 -/

/-- Claim C2 counterexample: on the unregistered state mUnreg13, whose
buffer is the header 42 66 followed by the identity bytes 1 to 11, the
decode registers and captures the identity, but the buffer afterwards still
holds exactly those 11 consumed identity bytes (line 162 assigns
datagram = datagram[2:13]), so the consumed bytes are not removed from the
buffer as claimed. -/
theorem C2_identity_bytes_stay_in_buffer :
    (decodeData mUnreg13 1).state.mmregistered = true ∧
    (decodeData mUnreg13 1).state.serialnumber =
      some [1, 2, 3, 4, 5, 6, 7, 8, 9, 10, 11] ∧
    (decodeData mUnreg13 1).state.new_serialnumber = true ∧
    (decodeData mUnreg13 1).state.datagram =
      [1, 2, 3, 4, 5, 6, 7, 8, 9, 10, 11] := by
  decide

/-- Claim C2 as amended: a decode step on an Unregistered state whose buffer
is the registration-confirmation header followed by at least 11 bytes
captures the 11 bytes after the header as the serial number, transitions to
Registered and sets the new-identity flag, but replaces the buffer with
those same 11 identity bytes: the header and all trailing bytes are
removed while the captured identity bytes remain as the buffer contents. -/
theorem C2_registration_decode (m : ModuleM) (now : Int) (s t : List Nat)
    (hreg : m.mmregistered = false)
    (hd : m.datagram = 42 :: 66 :: (s ++ t)) (hs : s.length = 11) :
    decodeData m now =
      ⟨{ m with last_update := now, mmregistered := true, datagram := s,
                serialnumber := some s, new_serialnumber := true },
        false⟩ := by
  obtain ⟨dg, sn, md, rg, lu, lr, np, ns, er, ei⟩ := m
  simp only at hreg hd
  subst hreg hd
  obtain ⟨e, rest, hst⟩ : ∃ e rest, s ++ t = e :: rest := by
    cases hcons : s ++ t with
    | nil =>
      exfalso
      have := congrArg List.length hcons
      simp [hs] at this
    | cons e rest => exact ⟨e, rest, rfl⟩
  unfold decodeData
  rw [if_neg (by simp), if_neg (by simp)]
  unfold decodeAfterHeader
  rw [if_pos (by simp)]
  have hscan : regConfirmScan (42 :: 66 :: (s ++ t)) = 42 :: 66 :: (s ++ t) := by
    rw [hst]
    simp [regConfirmScan]
  rw [hscan,
      if_pos (show 13 ≤ (42 :: 66 :: (s ++ t)).length by
        rw [List.length_cons, List.length_cons, List.length_append, hs]
        omega)]
  have hdrop : List.drop 2 (42 :: 66 :: (s ++ t)) = s ++ t := rfl
  rw [hdrop, List.take_left' hs]

/-- Witness for C2_registration_decode at the concrete state mUnreg13. -/
theorem C2_registration_decode_witness :
    decodeData mUnreg13 1 =
      ⟨{ mUnreg13 with last_update := 1, mmregistered := true,
                       datagram := [1, 2, 3, 4, 5, 6, 7, 8, 9, 10, 11],
                       serialnumber := some [1, 2, 3, 4, 5, 6, 7, 8, 9, 10, 11],
                       new_serialnumber := true }, false⟩ :=
  C2_registration_decode mUnreg13 1 [1, 2, 3, 4, 5, 6, 7, 8, 9, 10, 11] []
    rfl (by decide) rfl

/-! ## Claim C3 -/

/-- Helper: the post-header decode never changes last_update. -/
theorem decodeAfterHeader_last_update (m1 : ModuleM) :
    (decodeAfterHeader m1).state.last_update = m1.last_update := by
  unfold decodeAfterHeader
  split
  · split <;> rfl
  · split
    · split
      · rfl
      · split
        · rfl
        · split
          · rfl
          · rw [decodeCD_last_update]
    · rw [decodeCD_last_update]

/-- Helper: when the buffer passes the marker check and the command-code
check, every branch of the remaining decode stores the current time into
last_update (source line 153 runs before any record is decoded). -/
theorem lastUpdate_of_header (m : ModuleM) (now : Int)
    (h1 : m.datagram.take 1 = [42])
    (h2 : (m.datagram.drop 1).take 1 ∈ ([[66], [67], [68], [69]] : List (List Nat))) :
    (decodeData m now).state.last_update = now := by
  unfold decodeData
  rw [if_neg (not_not_intro h1), if_neg (not_not_intro h2),
      decodeAfterHeader_last_update]

/-- Helper: when the marker check or the command-code check fails, the
decode returns False and does not touch last_update. -/
theorem lastUpdate_of_no_header (m : ModuleM) (now : Int)
    (h : ¬ (m.datagram.take 1 = [42] ∧
            (m.datagram.drop 1).take 1 ∈ ([[66], [67], [68], [69]] : List (List Nat)))) :
    (decodeData m now).state.last_update = m.last_update ∧
    (decodeData m now).result = false := by
  unfold decodeData
  by_cases h1 : m.datagram.take 1 = [42]
  · have h2 : ¬ (m.datagram.drop 1).take 1 ∈ ([[66], [67], [68], [69]] : List (List Nat)) :=
      fun hmem => h ⟨h1, hmem⟩
    rw [if_neg (by simp [h1]), if_pos h2]
    exact ⟨rfl, rfl⟩
  · rw [if_pos h1]
    exact ⟨rfl, rfl⟩

/-- Helper: a decode that reports success passed both header checks. -/
theorem header_of_result_true (m : ModuleM) (now : Int)
    (h : (decodeData m now).result = true) :
    m.datagram.take 1 = [42] ∧
    (m.datagram.drop 1).take 1 ∈ ([[66], [67], [68], [69]] : List (List Nat)) := by
  by_contra hc
  have := (lastUpdate_of_no_header m now hc).2
  rw [this] at h
  exact Bool.false_ne_true h

/-- Claim C3 counterexample: on the registered state mRegC2, whose buffer
holds only the two bytes 42 67 of a C record, the decode at time 9 reports
no record, yet last_update changes from 0 to 9, because the source
refreshes last_update (line 153) before it knows whether a record decodes. -/
theorem C3_short_record_refreshes_last_update :
    (decodeData mRegC2 9).result = false ∧
    mRegC2.last_update = 0 ∧
    (decodeData mRegC2 9).state.last_update = 9 := by
  decide

/-- Claim C3 as amended: last_update is refreshed to the cycle time on every
decode cycle whose buffer starts with the marker followed by a recognized
command code, whether or not a record is decoded; a cycle failing those
header checks reports no record and leaves last_update unchanged; and since
every successful decode passes the header checks, is_stale is false
immediately after any successful decode regardless of record type. -/
theorem C3_last_update_follows_header_checks :
    (∀ (m : ModuleM) (now : Int),
      m.datagram.take 1 = [42] →
      (m.datagram.drop 1).take 1 ∈ ([[66], [67], [68], [69]] : List (List Nat)) →
      (decodeData m now).state.last_update = now) ∧
    (∀ (m : ModuleM) (now : Int),
      ¬ (m.datagram.take 1 = [42] ∧
         (m.datagram.drop 1).take 1 ∈ ([[66], [67], [68], [69]] : List (List Nat))) →
      (decodeData m now).state.last_update = m.last_update ∧
      (decodeData m now).result = false) ∧
    (∀ (m : ModuleM) (now : Int),
      (decodeData m now).result = true →
      is_stale (decodeData m now).state now = false) := by
  refine ⟨lastUpdate_of_header, lastUpdate_of_no_header, ?_⟩
  intro m now h
  obtain ⟨h1, h2⟩ := header_of_result_true m now h
  have hl := lastUpdate_of_header m now h1 h2
  have hlt : ¬ (now + 5 < now) := by omega
  simp [is_stale, hl, hlt]

/-- Witness for C3_last_update_follows_header_checks: its three clauses
instantiated at concrete states with every hypothesis discharged. -/
theorem C3_last_update_follows_header_checks_witness :
    (decodeData mRegC2 9).state.last_update = 9 ∧
    ((decodeData mRegD 4).state.last_update = mRegD.last_update ∨
      (decodeData mRegD 3).state.last_update = 3) ∧
    is_stale (decodeData mRegD 3).state 3 = false := by
  refine ⟨C3_last_update_follows_header_checks.1 mRegC2 9 (by decide) (by decide),
          Or.inr (C3_last_update_follows_header_checks.1 mRegD 3 (by decide) (by decide)),
          C3_last_update_follows_header_checks.2.2 mRegD 3 (by decide)⟩

/-! ## Claim C5 -/

/-- Helper: a buffer whose first two bytes are known determines a
cons-cons decomposition. -/
theorem eq_cons_cons_of_take_two {l : List Nat} {a b : Nat}
    (h : l.take 2 = [a, b]) : ∃ rest, l = a :: b :: rest := by
  cases l with
  | nil => simp at h
  | cons x xs =>
    cases xs with
    | nil => simp at h
    | cons y ys =>
      simp at h
      exact ⟨ys, by rw [h.1, h.2]⟩

/-- Helper: decodeCD changes an energy field only in its successful D
branch, which requires a 42 68 header and at least 49 buffered bytes. -/
theorem decodeCD_energy (m : ModuleM) :
    ((decodeCD m).state.mmdata.energy_forward = m.mmdata.energy_forward ∧
     (decodeCD m).state.mmdata.energy_reverse = m.mmdata.energy_reverse) ∨
    (m.datagram.take 2 = [42, 68] ∧ 49 ≤ m.datagram.length ∧
     (decodeCD m).result = true) := by
  unfold decodeCD
  split
  · split
    · exact Or.inl ⟨rfl, rfl⟩
    · exact Or.inl ⟨rfl, rfl⟩
  · split
    · next hd =>
      split
      · exact Or.inl ⟨rfl, rfl⟩
      · next hlen => exact Or.inr ⟨hd, by omega, rfl⟩
    · exact Or.inl ⟨rfl, rfl⟩

/-- Helper: the post-header decode changes an energy field only through a
successful D decode on a registered state. -/
theorem decodeAfterHeader_energy (m1 : ModuleM) :
    ((decodeAfterHeader m1).state.mmdata.energy_forward = m1.mmdata.energy_forward ∧
     (decodeAfterHeader m1).state.mmdata.energy_reverse = m1.mmdata.energy_reverse) ∨
    (m1.mmregistered = true ∧ m1.datagram.take 2 = [42, 68] ∧
     49 ≤ m1.datagram.length ∧ (decodeAfterHeader m1).result = true) := by
  unfold decodeAfterHeader
  split
  · split
    · exact Or.inl ⟨rfl, rfl⟩
    · exact Or.inl ⟨rfl, rfl⟩
  · next hreg =>
    have hreg2 : m1.mmregistered = true := by
      by_contra hc
      exact hreg (by simp [Bool.of_not_eq_true hc])
    split
    · split
      · exact Or.inl ⟨rfl, rfl⟩
      · split
        · exact Or.inl ⟨rfl, rfl⟩
        · split
          · exact Or.inl ⟨rfl, rfl⟩
          · rcases decodeCD_energy { m1 with
                errors := (stripHead3 (splitCRLF m1.datagram)).take (m1.datagram.getD 2 0),
                datagram := [] } with ⟨h1, h2⟩ | ⟨h1, h2, h3⟩
            · exact Or.inl ⟨h1, h2⟩
            · simp at h1
    · rcases decodeCD_energy m1 with ⟨h1, h2⟩ | ⟨h1, h2, h3⟩
      · exact Or.inl ⟨h1, h2⟩
      · exact Or.inr ⟨hreg2, h1, h2, h3⟩

/-- Helper: a whole decode step changes an energy field only through a
successful D decode on a registered state with a complete 49-byte record. -/
theorem decodeData_energy (m : ModuleM) (now : Int) :
    ((decodeData m now).state.mmdata.energy_forward = m.mmdata.energy_forward ∧
     (decodeData m now).state.mmdata.energy_reverse = m.mmdata.energy_reverse) ∨
    (m.mmregistered = true ∧ m.datagram.take 2 = [42, 68] ∧
     49 ≤ m.datagram.length ∧ (decodeData m now).result = true) := by
  unfold decodeData
  split
  · exact Or.inl ⟨rfl, rfl⟩
  · split
    · exact Or.inl ⟨rfl, rfl⟩
    · simpa using decodeAfterHeader_energy { m with last_update := now }

/-- A measurement snapshot with nonzero phase values and the energy
counters 77 and 88, used to watch which fields an operation changes. -/
def snapshotE : VictronSerialAmpsAndVoltage :=
  ⟨0, false, false, false, 1, 2, 3, 4, 5, 6, 7, 8, 9, 77, 88⟩

/-- A well-formed 41-byte C record: marker, code C, export flags 0 1 0 and
the nine phase fields with values 21 to 29 in little-endian byte order. -/
def cRecord41 : List Nat :=
  [42, 67, 0, 1, 0] ++
  [21, 0, 0, 0] ++ [22, 0, 0, 0] ++ [23, 0, 0, 0] ++
  [24, 0, 0, 0] ++ [25, 0, 0, 0] ++ [26, 0, 0, 0] ++
  [27, 0, 0, 0] ++ [28, 0, 0, 0] ++ [29, 0, 0, 0]

/-- A registered decoder state with prior energies 77 and 88 whose buffer
holds exactly the 41-byte C record cRecord41, plus one stored error line. -/
def mRegC41 : ModuleM :=
  ⟨cRecord41, none, snapshotE, true, 0, 0, false, false, [[5]], 0⟩

/-- Claim C5: the cumulative energy fields change only under a successful
decode of a complete D record on a registered state (first clause); a
successful C decode updates the nine phase fields to the decoded values and
the command code while leaving both energy fields at their prior values
(second clause); and the staleness zeroing of the main loop zeroes exactly
the nine phase fields, preserving both energy fields and the error list
(third clause). -/
theorem C5_energy_only_from_d_records :
    (∀ (m : ModuleM) (now : Int),
      ((decodeData m now).state.mmdata.energy_forward ≠ m.mmdata.energy_forward ∨
       (decodeData m now).state.mmdata.energy_reverse ≠ m.mmdata.energy_reverse) →
      m.mmregistered = true ∧ m.datagram.take 2 = [42, 68] ∧
      49 ≤ m.datagram.length ∧ (decodeData m now).result = true) ∧
    (∀ (m : ModuleM) (now : Int),
      m.mmregistered = true → m.datagram.take 2 = [42, 67] →
      41 ≤ m.datagram.length →
      (decodeData m now).result = true ∧
      (decodeData m now).state.mmdata.energy_forward = m.mmdata.energy_forward ∧
      (decodeData m now).state.mmdata.energy_reverse = m.mmdata.energy_reverse ∧
      (decodeData m now).state.mmdata.command = 67 ∧
      (decodeData m now).state.mmdata.I1 = u32At m.datagram 5 ∧
      (decodeData m now).state.mmdata.I2 = u32At m.datagram 9 ∧
      (decodeData m now).state.mmdata.I3 = u32At m.datagram 13 ∧
      (decodeData m now).state.mmdata.U1 = u32At m.datagram 17 ∧
      (decodeData m now).state.mmdata.U2 = u32At m.datagram 21 ∧
      (decodeData m now).state.mmdata.U3 = u32At m.datagram 25 ∧
      (decodeData m now).state.mmdata.P1 = u32At m.datagram 29 ∧
      (decodeData m now).state.mmdata.P2 = u32At m.datagram 33 ∧
      (decodeData m now).state.mmdata.P3 = u32At m.datagram 37) ∧
    (∀ m : ModuleM,
      (staleZero m).mmdata.energy_forward = m.mmdata.energy_forward ∧
      (staleZero m).mmdata.energy_reverse = m.mmdata.energy_reverse ∧
      (staleZero m).errors = m.errors ∧
      (staleZero m).mmdata.I1 = 0 ∧ (staleZero m).mmdata.I2 = 0 ∧
      (staleZero m).mmdata.I3 = 0 ∧ (staleZero m).mmdata.U1 = 0 ∧
      (staleZero m).mmdata.U2 = 0 ∧ (staleZero m).mmdata.U3 = 0 ∧
      (staleZero m).mmdata.P1 = 0 ∧ (staleZero m).mmdata.P2 = 0 ∧
      (staleZero m).mmdata.P3 = 0) := by
  refine ⟨?_, ?_, ?_⟩
  · intro m now h
    rcases decodeData_energy m now with ⟨h1, h2⟩ | hr
    · rcases h with hne | hne
      · exact absurd h1 hne
      · exact absurd h2 hne
    · exact hr
  · intro m now hreg h2 hlen
    obtain ⟨rest, hrest⟩ := eq_cons_cons_of_take_two h2
    obtain ⟨dg, sn, md, rg, lu, lr, np, ns, er, ei⟩ := m
    simp only at hreg hrest hlen ⊢
    subst hreg hrest
    unfold decodeData
    rw [if_neg (by simp), if_neg (by simp)]
    unfold decodeAfterHeader
    rw [if_neg (by simp)]
    rw [if_neg (by simp)]
    unfold decodeCD
    rw [if_pos (by simp)]
    rw [if_neg (by push_neg; simpa using hlen)]
    exact ⟨rfl, rfl, rfl, rfl, rfl, rfl, rfl, rfl, rfl, rfl, rfl, rfl, rfl⟩
  · intro m
    exact ⟨rfl, rfl, rfl, rfl, rfl, rfl, rfl, rfl, rfl, rfl, rfl, rfl⟩

/-- Witness for C5_energy_only_from_d_records: the first clause applied at
the D-record state mRegD (whose decode changes energy_forward from 0 to
10), the second at the C-record state mRegC41 with prior energies 77 and
88, the third at mRegC41. -/
theorem C5_energy_only_from_d_records_witness :
    (mRegD.mmregistered = true ∧ mRegD.datagram.take 2 = [42, 68] ∧
      49 ≤ mRegD.datagram.length ∧ (decodeData mRegD 3).result = true) ∧
    ((decodeData mRegC41 4).result = true ∧
      (decodeData mRegC41 4).state.mmdata.energy_forward = mRegC41.mmdata.energy_forward) ∧
    ((staleZero mRegC41).mmdata.energy_forward = mRegC41.mmdata.energy_forward ∧
      (staleZero mRegC41).errors = mRegC41.errors) := by
  have h1 := C5_energy_only_from_d_records.1 mRegD 3 (by decide)
  have h2 := C5_energy_only_from_d_records.2.1 mRegC41 4 (by decide) (by decide) (by decide)
  have h3 := C5_energy_only_from_d_records.2.2 mRegC41
  exact ⟨h1, ⟨h2.1, h2.2.1⟩, ⟨h3.1, h3.2.2.1⟩⟩

/-! ## Claim C6 -/

/-- Helper: a registered decode on a C header with fewer than 41 bytes
changes nothing but last_update and reports no record (lines 215-217). -/
theorem decodeData_wait_C (m : ModuleM) (now : Int)
    (hreg : m.mmregistered = true) (h2 : m.datagram.take 2 = [42, 67])
    (hlen : m.datagram.length < 41) :
    decodeData m now = ⟨{ m with last_update := now }, false⟩ := by
  obtain ⟨rest, hrest⟩ := eq_cons_cons_of_take_two h2
  obtain ⟨dg, sn, md, rg, lu, lr, np, ns, er, ei⟩ := m
  simp only at hreg hrest hlen ⊢
  subst hreg hrest
  unfold decodeData
  rw [if_neg (by simp), if_neg (by simp)]
  unfold decodeAfterHeader
  rw [if_neg (by simp), if_neg (by simp)]
  unfold decodeCD
  rw [if_pos (by simp), if_pos (by simpa using hlen)]

/-- Helper: a registered decode on a D header with fewer than 49 bytes
changes nothing but last_update and reports no record (lines 246-248). -/
theorem decodeData_wait_D (m : ModuleM) (now : Int)
    (hreg : m.mmregistered = true) (h2 : m.datagram.take 2 = [42, 68])
    (hlen : m.datagram.length < 49) :
    decodeData m now = ⟨{ m with last_update := now }, false⟩ := by
  obtain ⟨rest, hrest⟩ := eq_cons_cons_of_take_two h2
  obtain ⟨dg, sn, md, rg, lu, lr, np, ns, er, ei⟩ := m
  simp only at hreg hrest hlen ⊢
  subst hreg hrest
  unfold decodeData
  rw [if_neg (by simp), if_neg (by simp)]
  unfold decodeAfterHeader
  rw [if_neg (by simp), if_neg (by simp)]
  unfold decodeCD
  rw [if_neg (by simp), if_pos (by simp), if_pos (by simpa using hlen)]

/-- Helper: a registered decode on a C header with at least 41 bytes
decodes the record, consuming 41 bytes (lines 218-238). -/
theorem decodeData_complete_C (m : ModuleM) (now : Int)
    (hreg : m.mmregistered = true) (h2 : m.datagram.take 2 = [42, 67])
    (hlen : 41 ≤ m.datagram.length) :
    decodeData m now =
      ⟨{ m with last_update := now,
                mmdata := updateAmps m.mmdata m.datagram,
                datagram := m.datagram.drop 41 }, true⟩ := by
  obtain ⟨rest, hrest⟩ := eq_cons_cons_of_take_two h2
  obtain ⟨dg, sn, md, rg, lu, lr, np, ns, er, ei⟩ := m
  simp only at hreg hrest hlen ⊢
  subst hreg hrest
  unfold decodeData
  rw [if_neg (by simp), if_neg (by simp)]
  unfold decodeAfterHeader
  rw [if_neg (by simp), if_neg (by simp)]
  unfold decodeCD
  rw [if_pos (by simp), if_neg (by push_neg; simpa using hlen)]

/-- Helper: a registered decode on a D header with at least 49 bytes
decodes all 49 bytes of the record but consumes only 41 (lines 249-270). -/
theorem decodeData_complete_D (m : ModuleM) (now : Int)
    (hreg : m.mmregistered = true) (h2 : m.datagram.take 2 = [42, 68])
    (hlen : 49 ≤ m.datagram.length) :
    decodeData m now =
      ⟨{ m with last_update := now,
                mmdata := updateAmpsEnergy m.mmdata m.datagram,
                datagram := m.datagram.drop 41 }, true⟩ := by
  obtain ⟨rest, hrest⟩ := eq_cons_cons_of_take_two h2
  obtain ⟨dg, sn, md, rg, lu, lr, np, ns, er, ei⟩ := m
  simp only at hreg hrest hlen ⊢
  subst hreg hrest
  unfold decodeData
  rw [if_neg (by simp), if_neg (by simp)]
  unfold decodeAfterHeader
  rw [if_neg (by simp), if_neg (by simp)]
  unfold decodeCD
  rw [if_neg (by simp), if_pos (by simp), if_neg (by push_neg; simpa using hlen)]

/-- Helper: resynchronization keeps a buffer of at least two bytes that
already starts with the marker. -/
theorem resync_marker_cons (x : Nat) (xs : List Nat) :
    resync (42 :: x :: xs) = 42 :: x :: xs := by
  simp [resync, resyncLoop]

/-- Helper: feeding extra bytes to a registered state whose buffer already
starts with marker and one more byte appends them and reports data ready. -/
theorem readData_registered_append (m : ModuleM) (now : Int)
    (extra : List Nat) (ok : Bool) (x : Nat) (xs : List Nat)
    (hreg : m.mmregistered = true) (hd : m.datagram = 42 :: x :: xs) :
    readData m now extra ok =
      ⟨{ m with datagram := m.datagram ++ extra }, [], false, true⟩ := by
  obtain ⟨dg, sn, md, rg, lu, lr, np, ns, er, ei⟩ := m
  simp only at hreg hd ⊢
  subst hreg hd
  unfold readData
  rw [if_neg (by simp), if_neg (by simp),
      if_neg (by rw [List.cons_append, List.cons_append, resync_marker_cons]; simp)]
  rw [List.cons_append, List.cons_append, resync_marker_cons]

/-- A registered decoder state holding only the first 40 bytes of the C
record cRecord41. -/
def mRegC40 : ModuleM :=
  ⟨cRecord41.take 40, none, snapshotE, true, 0, 0, false, false, [], 0⟩

/-- A registered decoder state holding only the first 48 bytes of the D
record dRecord49. -/
def mRegD48 : ModuleM :=
  ⟨dRecord49.take 48, none, snapshotE, true, 0, 0, false, false, [], 0⟩

/-- Claim C6: a registered decode on a C (resp. D) header with fewer than
41 (resp. 49) bytes reports no record and leaves the buffer and the
measurement snapshot untouched (only last_update moves, per C3); and when
the missing bytes are fed later through a read cycle, the subsequent decode
succeeds with exactly the values encoded in the originally intended
record. -/
theorem C6_partial_record_waits_then_completes :
    (∀ (m : ModuleM) (now : Int),
      m.mmregistered = true → m.datagram.take 2 = [42, 67] →
      m.datagram.length < 41 →
      decodeData m now = ⟨{ m with last_update := now }, false⟩) ∧
    (∀ (m : ModuleM) (now : Int),
      m.mmregistered = true → m.datagram.take 2 = [42, 68] →
      m.datagram.length < 49 →
      decodeData m now = ⟨{ m with last_update := now }, false⟩) ∧
    (∀ (m : ModuleM) (now now2 now3 : Int) (extra : List Nat) (ok : Bool),
      m.mmregistered = true → m.datagram.take 2 = [42, 67] →
      m.datagram.length < 41 → 41 ≤ m.datagram.length + extra.length →
      (readData (decodeData m now).state now2 extra ok).state.datagram =
        m.datagram ++ extra ∧
      (readData (decodeData m now).state now2 extra ok).result = true ∧
      decodeData (readData (decodeData m now).state now2 extra ok).state now3 =
        ⟨{ m with last_update := now3,
                  mmdata := updateAmps m.mmdata (m.datagram ++ extra),
                  datagram := (m.datagram ++ extra).drop 41 }, true⟩) ∧
    (∀ (m : ModuleM) (now now2 now3 : Int) (extra : List Nat) (ok : Bool),
      m.mmregistered = true → m.datagram.take 2 = [42, 68] →
      m.datagram.length < 49 → 49 ≤ m.datagram.length + extra.length →
      (readData (decodeData m now).state now2 extra ok).state.datagram =
        m.datagram ++ extra ∧
      (readData (decodeData m now).state now2 extra ok).result = true ∧
      decodeData (readData (decodeData m now).state now2 extra ok).state now3 =
        ⟨{ m with last_update := now3,
                  mmdata := updateAmpsEnergy m.mmdata (m.datagram ++ extra),
                  datagram := (m.datagram ++ extra).drop 41 }, true⟩) := by
  refine ⟨decodeData_wait_C, decodeData_wait_D, ?_, ?_⟩
  · intro m now now2 now3 extra ok hreg h2 hlt hlen
    obtain ⟨rest, hrest⟩ := eq_cons_cons_of_take_two h2
    have hw := decodeData_wait_C m now hreg h2 hlt
    have hstate : (decodeData m now).state = { m with last_update := now } := by
      rw [hw]
    have hr := readData_registered_append { m with last_update := now } now2
      extra ok 67 rest hreg hrest
    refine ⟨?_, ?_, ?_⟩
    · rw [hstate, hr]
    · rw [hstate, hr]
    · rw [hstate, hr]
      have hdg : ({ m with last_update := now, datagram := m.datagram ++ extra } : ModuleM).datagram = m.datagram ++ extra := rfl
      exact decodeData_complete_C
        { m with last_update := now, datagram := m.datagram ++ extra } now3
        hreg (by rw [hdg, hrest]; rfl)
        (by rw [hdg, List.length_append]; omega)
  · intro m now now2 now3 extra ok hreg h2 hlt hlen
    obtain ⟨rest, hrest⟩ := eq_cons_cons_of_take_two h2
    have hw := decodeData_wait_D m now hreg h2 hlt
    have hstate : (decodeData m now).state = { m with last_update := now } := by
      rw [hw]
    have hr := readData_registered_append { m with last_update := now } now2
      extra ok 68 rest hreg hrest
    refine ⟨?_, ?_, ?_⟩
    · rw [hstate, hr]
    · rw [hstate, hr]
    · rw [hstate, hr]
      have hdg : ({ m with last_update := now, datagram := m.datagram ++ extra } : ModuleM).datagram = m.datagram ++ extra := rfl
      exact decodeData_complete_D
        { m with last_update := now, datagram := m.datagram ++ extra } now3
        hreg (by rw [hdg, hrest]; rfl)
        (by rw [hdg, List.length_append]; omega)

/-- Witness for C6_partial_record_waits_then_completes: 40 of 41 bytes of a
C record (and 48 of 49 of a D record) decode nothing and change nothing,
and feeding the one missing byte completes the decode with the intended
values. -/
theorem C6_partial_record_waits_then_completes_witness :
    decodeData mRegC40 2 = ⟨{ mRegC40 with last_update := 2 }, false⟩ ∧
    decodeData (readData (decodeData mRegC40 2).state 3 [0] true).state 4 =
      ⟨{ mRegC40 with last_update := 4,
                      mmdata := updateAmps mRegC40.mmdata (mRegC40.datagram ++ [0]),
                      datagram := (mRegC40.datagram ++ [0]).drop 41 }, true⟩ ∧
    decodeData mRegD48 2 = ⟨{ mRegD48 with last_update := 2 }, false⟩ ∧
    decodeData (readData (decodeData mRegD48 2).state 3 [0] true).state 4 =
      ⟨{ mRegD48 with last_update := 4,
                      mmdata := updateAmpsEnergy mRegD48.mmdata (mRegD48.datagram ++ [0]),
                      datagram := (mRegD48.datagram ++ [0]).drop 41 }, true⟩ := by
  refine ⟨C6_partial_record_waits_then_completes.1 mRegC40 2
            (by decide) (by decide) (by decide),
          (C6_partial_record_waits_then_completes.2.2.1 mRegC40 2 3 4 [0] true
            (by decide) (by decide) (by decide) (by decide)).2.2,
          C6_partial_record_waits_then_completes.2.1 mRegD48 2
            (by decide) (by decide) (by decide),
          (C6_partial_record_waits_then_completes.2.2.2 mRegD48 2 3 4 [0] true
            (by decide) (by decide) (by decide) (by decide)).2.2⟩

/-! ## Claim C7 -/

/-- A registered decoder state holding an E record with line count 0
followed by two trailing bytes. -/
def mRegE0 : ModuleM :=
  ⟨[42, 69, 0, 7, 7], none, snapshotE, true, 0, 0, false, false, [[1]], 0⟩

/-- A registered decoder state holding an E record with line count 2 and
two CRLF-delimited segments. -/
def mRegE2 : ModuleM :=
  ⟨[42, 69, 2, 97, 98, 13, 10, 99, 100], none, snapshotE, true, 0, 0,
   false, false, [[1]], 0⟩

/-- A registered decoder state holding an E record with line count 2 but
only one CRLF segment available. -/
def mRegE2short : ModuleM :=
  ⟨[42, 69, 2, 97], none, snapshotE, true, 0, 0, false, false, [[1]], 0⟩

/-- Claim C7: on a registered E-record buffer, a zero line count clears the
error log and consumes exactly 3 bytes, keeping trailing bytes (first
clause); a positive line count with enough CRLF segments replaces the error
log by the first N segments, the first stripped of its 3 header bytes, and
clears the whole remaining buffer (second clause); a positive line count
with too few segments waits, leaving the buffer untouched (third clause). -/
theorem C7_error_record_branches :
    (∀ (m : ModuleM) (now : Int),
      m.mmregistered = true → m.datagram.take 2 = [42, 69] →
      3 ≤ m.datagram.length → m.datagram.getD 2 0 = 0 →
      decodeData m now =
        ⟨{ m with last_update := now, errors := [],
                  datagram := m.datagram.drop 3 }, false⟩) ∧
    (∀ (m : ModuleM) (now : Int),
      m.mmregistered = true → m.datagram.take 2 = [42, 69] →
      3 ≤ m.datagram.length → 0 < m.datagram.getD 2 0 →
      m.datagram.getD 2 0 ≤ (splitCRLF m.datagram).length →
      decodeData m now =
        ⟨{ m with last_update := now,
                  errors := (stripHead3 (splitCRLF m.datagram)).take
                    (m.datagram.getD 2 0),
                  datagram := [] }, false⟩) ∧
    (∀ (m : ModuleM) (now : Int),
      m.mmregistered = true → m.datagram.take 2 = [42, 69] →
      3 ≤ m.datagram.length → 0 < m.datagram.getD 2 0 →
      (splitCRLF m.datagram).length < m.datagram.getD 2 0 →
      decodeData m now = ⟨{ m with last_update := now }, false⟩) := by
  refine ⟨?_, ?_, ?_⟩
  · intro m now hreg h2 hlen hn
    obtain ⟨rest, hrest⟩ := eq_cons_cons_of_take_two h2
    obtain ⟨dg, sn, md, rg, lu, lr, np, ns, er, ei⟩ := m
    simp only at hreg hrest hlen hn ⊢
    subst hreg hrest
    unfold decodeData
    rw [if_neg (by simp), if_neg (by simp)]
    unfold decodeAfterHeader
    rw [if_neg (by simp), if_pos (by simp), if_neg (by push_neg; simpa using hlen),
        if_pos hn]
  · intro m now hreg h2 hlen hn hsegs
    obtain ⟨rest, hrest⟩ := eq_cons_cons_of_take_two h2
    obtain ⟨dg, sn, md, rg, lu, lr, np, ns, er, ei⟩ := m
    simp only at hreg hrest hlen hn hsegs ⊢
    subst hreg hrest
    unfold decodeData
    rw [if_neg (by simp), if_neg (by simp)]
    unfold decodeAfterHeader
    rw [if_neg (by simp), if_pos (by simp), if_neg (by push_neg; simpa using hlen),
        if_neg (show ¬ (42 :: 69 :: rest).getD 2 0 = 0 by omega),
        if_neg (Nat.not_lt.mpr hsegs)]
    unfold decodeCD
    rw [if_neg (by simp), if_neg (by simp)]
  · intro m now hreg h2 hlen hn hsegs
    obtain ⟨rest, hrest⟩ := eq_cons_cons_of_take_two h2
    obtain ⟨dg, sn, md, rg, lu, lr, np, ns, er, ei⟩ := m
    simp only at hreg hrest hlen hn hsegs ⊢
    subst hreg hrest
    unfold decodeData
    rw [if_neg (by simp), if_neg (by simp)]
    unfold decodeAfterHeader
    rw [if_neg (by simp), if_pos (by simp), if_neg (by push_neg; simpa using hlen),
        if_neg (show ¬ (42 :: 69 :: rest).getD 2 0 = 0 by omega),
        if_pos hsegs]

/-- Witness for C7_error_record_branches: the three clauses at the concrete
E-record states mRegE0, mRegE2 and mRegE2short. -/
theorem C7_error_record_branches_witness :
    decodeData mRegE0 1 =
      ⟨{ mRegE0 with last_update := 1, errors := [],
                     datagram := [7, 7] }, false⟩ ∧
    decodeData mRegE2 1 =
      ⟨{ mRegE2 with last_update := 1,
                     errors := [[97, 98], [99, 100]],
                     datagram := [] }, false⟩ ∧
    decodeData mRegE2short 1 = ⟨{ mRegE2short with last_update := 1 }, false⟩ := by
  have h1 := C7_error_record_branches.1 mRegE0 1 (by decide) (by decide)
    (by decide) (by decide)
  have h2 := C7_error_record_branches.2.1 mRegE2 1 (by decide) (by decide)
    (by decide) (by decide) (by decide)
  have h3 := C7_error_record_branches.2.2 mRegE2short 1 (by decide) (by decide)
    (by decide) (by decide) (by decide)
  refine ⟨h1, ?_, h3⟩
  rw [h2]
  decide

/-! ## Claim C8 -/

/-- An unregistered decoder state with an empty buffer and a registration
request last sent at time 0. -/
def mUnregIdle : ModuleM :=
  ⟨[], none, initSnapshot, false, 0, 0, false, false, [], 0⟩

/-- Helper: while unregistered, once strictly more than 2 time units have
passed since the last request, the read cycle resets the timer, writes the
3-byte registration request, and returns False without touching the buffer
(lines 119-126); a failed write only sets the caught-exception flag. -/
theorem readData_register_request (m : ModuleM) (now : Int)
    (incoming : List Nat) (ok : Bool) (hreg : m.mmregistered = false)
    (ht : 2 < now - m.mmregistered_last_register_request) :
    readData m now incoming ok =
      ⟨{ m with mmregistered_last_register_request := now },
        [registerMsg], !ok, false⟩ := by
  obtain ⟨dg, sn, md, rg, lu, lr, np, ns, er, ei⟩ := m
  simp only at hreg ht ⊢
  subst hreg
  unfold readData
  rw [if_pos (by exact ⟨by simp, ht⟩)]

/-- Claim C8 counterexample: with exactly 2 time units elapsed (which the
claim counts as eligible), the cycle sends nothing and does not reset the
timer, because the source tests time.time() - last > 2 strictly; moreover
the registration request the source does send, the bytes of "*A" plus a
newline, is 3 bytes long, not 2. -/
theorem C8_exact_cooldown_sends_nothing :
    (readData mUnregIdle 2 [] true).wrote = [] ∧
    (readData mUnregIdle 2 [] true).state = mUnregIdle ∧
    registerMsg.length = 3 := by
  decide

/-- Claim C8 as amended: on every read cycle in the Unregistered state where
strictly more than 2 time units have elapsed since the last request, the
handshake resets the timer to the current time, writes the 3-byte
registration request (marker, request code, newline) to the transport, and
immediately reports no record without inspecting the buffer; a write
failure is caught (reported via the writeFailed flag, not an exception),
and the request is re-sent on a later cycle once strictly more than 2 units
have passed since the reset. -/
theorem C8_registration_request_cycle :
    (∀ (m : ModuleM) (now : Int) (incoming : List Nat) (ok : Bool),
      m.mmregistered = false →
      2 < now - m.mmregistered_last_register_request →
      readData m now incoming ok =
        ⟨{ m with mmregistered_last_register_request := now },
          [registerMsg], !ok, false⟩) ∧
    registerMsg = [42, 65, 10] ∧
    (∀ (m : ModuleM) (now now2 : Int) (incoming incoming2 : List Nat)
        (ok ok2 : Bool),
      m.mmregistered = false →
      2 < now - m.mmregistered_last_register_request →
      2 < now2 - now →
      (readData (readData m now incoming ok).state now2 incoming2 ok2).wrote =
        [registerMsg]) := by
  refine ⟨readData_register_request, rfl, ?_⟩
  intro m now now2 incoming incoming2 ok ok2 hreg ht ht2
  rw [readData_register_request m now incoming ok hreg ht]
  rw [readData_register_request
        { m with mmregistered_last_register_request := now } now2 incoming2 ok2
        hreg (by simpa using ht2)]

/-- Witness for C8_registration_request_cycle: the first clause at the
concrete state mUnregIdle at time 3 with a failing write, and the third
clause showing the retry at time 6. -/
theorem C8_registration_request_cycle_witness :
    readData mUnregIdle 3 [] false =
      ⟨{ mUnregIdle with mmregistered_last_register_request := 3 },
        [registerMsg], true, false⟩ ∧
    (readData (readData mUnregIdle 3 [] false).state 6 [] true).wrote =
      [registerMsg] := by
  refine ⟨?_, C8_registration_request_cycle.2.2 mUnregIdle 3 6 [] [] false true
            (by decide) (by decide) (by decide)⟩
  have h := C8_registration_request_cycle.1 mUnregIdle 3 [] false
    (by decide) (by decide)
  rw [h]
  decide

/-! ## Claim C9 -/

/-- A registered decoder state whose buffer starts with the marker followed
by the unrecognized command byte 88 and one more byte. -/
def mRegUnknown : ModuleM :=
  ⟨[42, 88, 5], none, snapshotE, true, 0, 0, false, false, [[3]], 0⟩

/-- Claim C9: a decode attempt is a total function returning one of the
tri-state outcomes (the embedding decodeData is total by construction, so
no input raises); in particular, when the buffer begins with the marker but
the byte at offset 1 is not one of the codes 66, 67, 68, 69, exactly the
2-byte header is discarded, the rest of the buffer and every other state
field is preserved, and the cycle reports no record decoded (lines
149-152, which also run before the last_update refresh of line 153). -/
theorem C9_unknown_command_drops_header (m : ModuleM) (now : Int)
    (hlen : 2 ≤ m.datagram.length) (h1 : m.datagram.take 1 = [42])
    (h2 : m.datagram.getD 1 0 ∉ ([66, 67, 68, 69] : List Nat)) :
    decodeData m now = ⟨{ m with datagram := m.datagram.drop 2 }, false⟩ := by
  obtain ⟨a, b, rest, hab⟩ : ∃ a b rest, m.datagram = a :: b :: rest := by
    cases hd : m.datagram with
    | nil => rw [hd] at hlen; simp at hlen
    | cons a tl =>
      cases tl with
      | nil => rw [hd] at hlen; simp at hlen
      | cons b rest => exact ⟨a, b, rest, rfl⟩
  obtain ⟨dg, sn, md, rg, lu, lr, np, ns, er, ei⟩ := m
  simp only at hab h1 h2 ⊢
  subst hab
  simp at h1
  subst h1
  unfold decodeData
  rw [if_neg (by simp), if_pos (by simpa using h2)]

/-- Witness for C9_unknown_command_drops_header at the concrete state
mRegUnknown: the header bytes 42 88 are dropped and the byte 5 stays. -/
theorem C9_unknown_command_drops_header_witness :
    decodeData mRegUnknown 1 =
      ⟨{ mRegUnknown with datagram := [5] }, false⟩ := by
  have h := C9_unknown_command_drops_header mRegUnknown 1
    (by decide) (by decide) (by decide)
  rw [h]
  decide

/-! ## Claim C10 -/

/-- An unregistered decoder state left with the single garbage byte 65 in
its buffer (as a previous decode cycle can produce) and an expired request
cooldown. -/
def mUnregGarbage1 : ModuleM :=
  ⟨[65], none, initSnapshot, false, 0, 0, false, false, [], 0⟩

/-- A registered decoder state with an empty buffer. -/
def mRegEmpty : ModuleM :=
  ⟨[], none, snapshotE, true, 0, 0, false, false, [], 0⟩

/-- Helper: a nonempty resynchronized buffer has at least two bytes and
starts with the marker. -/
theorem resync_ne_nil_spec (l : List Nat) (h : resync l ≠ []) :
    2 ≤ (resync l).length ∧ (resync l).take 1 = [42] := by
  unfold resync at h ⊢
  by_cases h1 : (resyncLoop l).length = 1
  · rw [if_pos h1] at h
    exact absurd rfl h
  · rw [if_neg h1] at h ⊢
    rcases resyncLoop_short_or_marker l with hs | hm
    · exfalso
      have h0 : (resyncLoop l).length = 0 := by omega
      exact h (List.eq_nil_of_length_eq_zero h0)
    · have h0 : (resyncLoop l).length ≠ 0 := by
        intro hz
        exact h (List.eq_nil_of_length_eq_zero hz)
      exact ⟨by omega, hm⟩

/-- Claim C10 counterexample: on the unregistered state mUnregGarbage1 with
its cooldown expired, the feed cycle takes the registration-request branch,
returns before inspecting the buffer, and the single-byte buffer survives
the cycle, contradicting the claim that a buffer of length exactly 1 never
survives a feed cycle. -/
theorem C10_single_byte_survives_request_cycle :
    (readData mUnregGarbage1 3 [] true).result = false ∧
    (readData mUnregGarbage1 3 [] true).state.datagram = [65] ∧
    (readData mUnregGarbage1 3 [] true).state.datagram.length = 1 := by
  decide

/-- Claim C10 as amended: whenever _read_data reports data ready, the buffer
has at least 2 bytes and starts with the marker (so in particular it is
empty or of length at least 2 with the marker first); a buffer of length
exactly 1 never survives a feed cycle in which the registration-request
branch does not fire (that branch returns early and can leave a
pre-existing single-byte buffer untouched); and a decode entered with an
empty buffer reports no record and changes nothing. -/
theorem C10_ready_buffer_invariant :
    (∀ (m : ModuleM) (now : Int) (incoming : List Nat) (ok : Bool),
      (readData m now incoming ok).result = true →
      2 ≤ (readData m now incoming ok).state.datagram.length ∧
      (readData m now incoming ok).state.datagram.take 1 = [42]) ∧
    (∀ (m : ModuleM) (now : Int) (incoming : List Nat) (ok : Bool),
      ¬ (m.mmregistered = false ∧
         2 < now - m.mmregistered_last_register_request) →
      (readData m now incoming ok).state.datagram.length ≠ 1) ∧
    (∀ (m : ModuleM) (now : Int),
      m.datagram = [] → decodeData m now = ⟨m, false⟩) := by
  refine ⟨?_, ?_, ?_⟩
  · intro m now incoming ok h
    unfold readData at h ⊢
    by_cases hc1 : ¬ m.mmregistered ∧ 2 < now - m.mmregistered_last_register_request
    · rw [if_pos hc1] at h
      exact absurd h (by simp)
    · rw [if_neg hc1] at h ⊢
      by_cases hc2 : incoming = [] ∧ m.datagram = []
      · rw [if_pos hc2] at h
        exact absurd h (by simp)
      · rw [if_neg hc2] at h ⊢
        by_cases hc3 : resync (m.datagram ++ incoming) = []
        · rw [if_pos hc3] at h
          exact absurd h (by simp)
        · rw [if_neg hc3]
          exact resync_ne_nil_spec _ hc3
  · intro m now incoming ok h
    have hneg : ¬ (¬ m.mmregistered ∧
        2 < now - m.mmregistered_last_register_request) := by
      simpa [Bool.not_eq_true] using h
    unfold readData
    rw [if_neg hneg]
    by_cases hc2 : incoming = [] ∧ m.datagram = []
    · rw [if_pos hc2]
      simp [hc2.2]
    · rw [if_neg hc2]
      by_cases hc3 : resync (m.datagram ++ incoming) = []
      · rw [if_pos hc3]
        simp
      · rw [if_neg hc3]
        have h2 := (resync_ne_nil_spec _ hc3).1
        show (resync (m.datagram ++ incoming)).length ≠ 1
        omega
  · intro m now hd
    obtain ⟨dg, sn, md, rg, lu, lr, np, ns, er, ei⟩ := m
    simp only at hd
    subst hd
    unfold decodeData
    rw [if_pos (by simp)]
    rfl

/-- Witness for C10_ready_buffer_invariant: the first two clauses at the
registered state mRegC2 fed one byte, the third at the empty-buffer state
mRegEmpty. -/
theorem C10_ready_buffer_invariant_witness :
    (2 ≤ (readData mRegC2 1 [5] true).state.datagram.length ∧
      (readData mRegC2 1 [5] true).state.datagram.take 1 = [42]) ∧
    (readData mRegC2 1 [5] true).state.datagram.length ≠ 1 ∧
    decodeData mRegEmpty 1 = ⟨mRegEmpty, false⟩ :=
  ⟨C10_ready_buffer_invariant.1 mRegC2 1 [5] true (by decide),
   C10_ready_buffer_invariant.2.1 mRegC2 1 [5] true (by decide),
   C10_ready_buffer_invariant.2.2 mRegEmpty 1 (by decide)⟩
